import Mathlib

set_option maxRecDepth 100000

/-!
Shallow embedding of the FlashJobs CV-generation pipeline
(`src/server/index.js`, first / live copy of the orchestration logic:
`detectRegion`, `generateCVWithClaude`, `generateCoverLetterWithClaude`,
`cleanupOldDocuments`, and the `/api/generate` + `/api/download` handlers),
together with theorems settling the frozen claims about it.

Strings are modelled as Lean `String`; JavaScript `null`/`undefined` values
are modelled as `Option` with `none`; the JSON responses of the inference
provider are modelled at the parse seam: each response is an
`Option <parsed shape>`, where `none` means "no JSON object found in the
response or `JSON.parse` threw".
-/

namespace FlashJobs

/-- JS truthiness of a possibly-absent string: `null`/`undefined` and the
empty string are falsy, every other string is truthy. -/
def truthyStr : Option String → Bool
  | none => false
  | some s => s ≠ ""

/-- JS `a || b` for a possibly-absent string `a` with a string default `b`
(used for patterns like `extractedData.currentTitle || 'Professional'`). -/
def jsOrD (a : Option String) (b : String) : String :=
  match a with
  | none => b
  | some s => if s = "" then b else s

/-- JS `a || b` where `a` is a possibly-absent array (arrays are always
truthy in JS, even when empty, so only `null`/`undefined` falls through). -/
def jsOrArr {α : Type} (a : Option (List α)) (b : Option (List α)) : Option (List α) :=
  match a with
  | none => b
  | some l => some l

/-- Lowercasing of a single ASCII character. -/
def lowerChar (c : Char) : Char :=
  if 65 ≤ c.toNat ∧ c.toNat ≤ 90 then Char.ofNat (c.toNat + 32) else c

/-- Lowercasing as used by JS `toLowerCase` on the ASCII strings involved. -/
def lowerStr (s : String) : String := String.mk (s.data.map lowerChar)

/-- Boolean test that the first character list starts with the second. -/
def startsList : List Char → List Char → Bool
  | _, [] => true
  | [], _ :: _ => false
  | a :: as, b :: bs => a == b && startsList as bs

/-- Boolean substring containment on character lists: `hasSubList s t` is
true when `t` occurs contiguously inside `s`. -/
def hasSubList : List Char → List Char → Bool
  | [], t => startsList [] t
  | s@(_ :: as), t => startsList s t || hasSubList as t

/-- JS `s.includes(t)`: substring containment on strings. -/
def jsIncludes (s t : String) : Bool := hasSubList s.data t.data

/-- JS `Math.round` on the exact rational value: round half toward
positive infinity. -/
def jsRound (q : ℚ) : ℤ := ⌊q + 1/2⌋

/-- Rounding of the exact quotient `a / n` to the nearest natural number
(halves up), computed in natural arithmetic: this is what
`Math.round((matched/required)*100)` evaluates to with `a = 100 * matched`
and `n = required`. The agreement with `jsRound` is proved in
`natRoundDiv_eq_jsRound`. -/
def natRoundDiv (a n : ℕ) : ℕ := (2 * a + n) / (2 * n)

/-- Gap-analysis result record (`matchedRequired`, `missingRequired`,
`matchedPreferred`, `matchPercent`) as built in `generateCVWithClaude`,
Step 4. -/
structure GapAnalysis where
  matchedRequired : List String
  missingRequired : List String
  matchedPreferred : List String
  matchPercent : ℤ
deriving Repr, DecidableEq

/-- Matching test for one required/preferred skill against the set of
lowercased candidate skills, as in
`candidateSkills.has(skill.toLowerCase()) ||
 [...candidateSkills].some(cs => cs.includes(skill.toLowerCase()) || skill.toLowerCase().includes(cs))`. -/
def skillMatch (cands : List String) (skill : String) : Bool :=
  let sl := lowerStr skill
  cands.contains sl || cands.any (fun cs => jsIncludes cs sl || jsIncludes sl cs)

/-- Gap analysis (Step 4 of `generateCVWithClaude`): pure function of the
candidate's skill list and the job's required/preferred skill lists. -/
def gapAnalyze (skills requiredSkills preferredSkills : List String) : GapAnalysis :=
  let cands := skills.map lowerStr
  let matched := requiredSkills.filter (fun s => skillMatch cands s)
  let missing := requiredSkills.filter (fun s => ¬ matched.contains s)
  let matchedPref := preferredSkills.filter (fun s => skillMatch cands s)
  let pct : ℤ :=
    if requiredSkills.length > 0 then
      (natRoundDiv (100 * matched.length) requiredSkills.length : ℤ)
    else 70
  ⟨matched, missing, matchedPref, pct⟩

/-- Region tag produced by `detectRegion`. -/
inductive Region
  | EU
  | UK
  | US
  | GLOBAL
deriving DecidableEq, Repr

/-- Job-posting input record (`jobData` in the server code); every field
may be absent. -/
structure JobData where
  rawText : Option String
  title : Option String
  company : Option String
  location : Option String
deriving DecidableEq, Repr

/-- JS string coercion `'' + x` of a possibly-absent value: a missing
value stringifies to the literal text `"undefined"`. -/
def jsCoerceStr : Option String → String
  | none => "undefined"
  | some s => s

/-- EU gazetteer of `detectRegion`, verbatim (note the trailing space in
`"eu "`). -/
def euCountries : List String :=
  ["germany", "german", "berlin", "munich", "france", "french", "paris",
   "netherlands", "dutch", "amsterdam", "spain", "spanish", "barcelona", "madrid",
   "italy", "italian", "rome", "milan", "ireland", "irish", "dublin",
   "portugal", "lisbon", "belgium", "brussels", "austria", "vienna",
   "sweden", "stockholm", "denmark", "copenhagen", "finland", "helsinki",
   "poland", "warsaw", "czech", "prague", "eu ", "european union", "europe"]

/-- UK gazetteer of `detectRegion`, verbatim. -/
def ukTerms : List String :=
  ["uk", "united kingdom", "britain", "british", "london", "manchester", "edinburgh"]

/-- US gazetteer of `detectRegion`, verbatim. -/
def usTerms : List String :=
  ["usa", "united states", "america", "new york", "san francisco",
   "los angeles", "seattle", "austin", "boston", "chicago"]

/-- Gazetteer cascade shared by the two region-classifier readings:
first match wins in priority order EU → UK → US → GLOBAL. -/
def regionOfText (text : String) : Region :=
  if euCountries.any (fun t => jsIncludes text t) then .EU
  else if ukTerms.any (fun t => jsIncludes text t) then .UK
  else if usTerms.any (fun t => jsIncludes text t) then .US
  else .GLOBAL

/-- The region classifier as implemented:
`const text = (jobData?.rawText || '' + jobData?.location || '').toLowerCase()`.
Because `+` binds tighter than `||` in JS, this is
`jobData?.rawText || ('' + jobData?.location) || ''`: the location string is
consulted only when the raw job text is absent or empty (and an absent
location stringifies to `"undefined"`; the trailing `|| ''` never changes
the value since `'' || '' === ''`). -/
def detectRegion (jobData : Option JobData) : Region :=
  regionOfText
    (lowerStr (jsOrD (jobData.bind (·.rawText)) (jsCoerceStr (jobData.bind (·.location)))))

/-- Region classification as the spec reads the same line: the job text
and the location string are concatenated, so both participate in the
match. Used only to compare the spec's claim against `detectRegion`. -/
def detectRegionSpec (jobData : Option JobData) : Region :=
  regionOfText
    (lowerStr ((jobData.bind (·.rawText)).getD "" ++ (jobData.bind (·.location)).getD ""))

/-- Education entry of the extraction JSON (every field may be absent in
the parsed response). -/
structure EduEntry where
  degree : Option String
  institution : Option String
  year : Option String
deriving DecidableEq, Repr

/-- Experience entry of the extraction JSON. -/
structure ExpEntry where
  title : Option String
  company : Option String
  location : Option String
  dates : Option String
  achievements : Option (List String)
deriving DecidableEq, Repr

/-- Parsed shape of the fact-extraction response (`extractedData`). -/
structure ExtractionJson where
  name : Option String
  email : Option String
  phone : Option String
  linkedin : Option String
  location : Option String
  nationality : Option String
  visaStatus : Option String
  currentTitle : Option String
  yearsExperience : Option String
  skills : Option (List String)
  experience : Option (List ExpEntry)
  education : Option (List EduEntry)
  certifications : Option (List String)
  languages : Option (List String)
deriving DecidableEq, Repr

/-- Per-entry education clean-up:
`{ degree: edu.degree || '', institution: edu.institution || '',
   year: (edu.year && edu.year !== 'null') ? edu.year : '' }`. -/
def cleanEdu (e : EduEntry) : EduEntry :=
  { degree := some (jsOrD e.degree ""),
    institution := some (jsOrD e.institution ""),
    year := some (match e.year with
      | some s => if s ≠ "" ∧ s ≠ "null" then s else ""
      | none => "") }

/-- Education post-processing: runs only when the field is present
(arrays are truthy in JS even when empty), maps `cleanEdu` over the
entries and drops entries whose institution is empty. -/
def postProcessEdu : Option (List EduEntry) → Option (List EduEntry)
  | none => none
  | some es => some ((es.map cleanEdu).filter (fun e => truthyStr e.institution))

/-- Post-processing applied to the parsed extraction response before
validation (only `education` is touched). -/
def postProcess (ej : ExtractionJson) : ExtractionJson :=
  { ej with education := postProcessEdu ej.education }

/-- Parsed shape of the job-analysis response (`jobRequirements`); only
the fields the pipeline reads downstream are modelled. -/
structure JobReqJson where
  jobTitle : Option String
  company : Option String
  requiredSkills : Option (List String)
  preferredSkills : Option (List String)
  keywords : Option (List String)
deriving DecidableEq, Repr

/-- Fallback installed when the job-analysis response cannot be parsed:
`{ requiredSkills: [], preferredSkills: [], keywords: [] }`. -/
def fallbackJobReq : JobReqJson :=
  { jobTitle := none, company := none,
    requiredSkills := some [], preferredSkills := some [], keywords := some [] }

/-- Contact block of the tailored CV JSON. -/
structure ContactJson where
  email : Option String
  phone : Option String
  linkedin : Option String
  location : Option String
deriving DecidableEq, Repr

/-- Parsed shape of the tailoring response / the CV content record
(`cvContent`); fields the pipeline never reads or writes are elided. -/
structure CvJson where
  name : Option String
  contact : Option ContactJson
  nationality : Option String
  visaStatus : Option String
  headline : Option String
  summary : Option String
  experience : Option (List ExpEntry)
  education : Option (List EduEntry)
  certifications : Option (List String)
  languages : Option (List String)
deriving DecidableEq, Repr

/-- Fallback CV content synthesized from the extracted data when the
tailoring response cannot be parsed. -/
def fallbackCv (ex : ExtractionJson) : CvJson :=
  { name := ex.name,
    contact := some { email := ex.email, phone := ex.phone,
                      linkedin := ex.linkedin, location := ex.location },
    nationality := ex.nationality,
    visaStatus := ex.visaStatus,
    headline := some (jsOrD ex.currentTitle "Professional"),
    summary := some "Experienced professional.",
    experience := some (ex.experience.getD []),
    education := some (ex.education.getD []),
    certifications := some (ex.certifications.getD []),
    languages := some (ex.languages.getD []) }

/-- Condition under which the identity-overwrite pass throws: the CV
record has no contact object (`cvContent.contact` is `undefined`) while
some guarded contact write
(`if (extractedData.email) cvContent.contact.email = ...`, likewise for
phone and linkedin) fires. -/
def crashCond (ej : ExtractionJson) (cv : CvJson) : Prop :=
  cv.contact = none ∧
    (truthyStr ej.email || truthyStr ej.phone || truthyStr ej.linkedin) = true

instance (ej : ExtractionJson) (cv : CvJson) : Decidable (crashCond ej cv) := by
  unfold crashCond; exact inferInstance

/-- Guarded contact writes of the overwrite pass, on a present contact
object: each field is replaced exactly when the extracted field is
truthy. -/
def overwriteContact (ex : ExtractionJson) (c : ContactJson) : ContactJson :=
  { c with
    email := if truthyStr ex.email then ex.email else c.email,
    phone := if truthyStr ex.phone then ex.phone else c.phone,
    linkedin := if truthyStr ex.linkedin then ex.linkedin else c.linkedin }

/-- Final identity-overwrite pass (`// Final validation - ensure we're
using real data`). Setting `cvContent.contact.email` when
`cvContent.contact` is `undefined` throws a `TypeError`, modelled as
`none`; the guarded writes fire exactly for truthy extracted fields. -/
def finalizeCv (ex : ExtractionJson) (cv : CvJson) : Option CvJson :=
  if crashCond ex cv then none
  else
    some { cv with
           name := ex.name,
           contact := cv.contact.map (overwriteContact ex),
           education := jsOrArr ex.education cv.education,
           languages := jsOrArr ex.languages cv.languages }

/-- Parsed shape of the cover-letter response. -/
structure CoverJson where
  opening : Option String
  body : Option (List String)
  closing : Option String
  recipientName : Option String
  companyName : Option String
  jobTitle : Option String
deriving DecidableEq, Repr

/-- Fallback cover letter returned when the cover-letter response cannot
be parsed (generic template, no extracted facts involved). -/
def fallbackCover (jobData : Option JobData) : CoverJson :=
  { opening := some ("I am writing to express my interest in the "
      ++ jsOrD (jobData.bind (·.title)) "position" ++ " role at "
      ++ jsOrD (jobData.bind (·.company)) "your company" ++ "."),
    body := some ["With my background and experience, I am confident I can contribute to your team."],
    closing := some "I look forward to discussing this opportunity with you.",
    recipientName := none,
    companyName := some (jsOrD (jobData.bind (·.company)) "your company"),
    jobTitle := some (jsOrD (jobData.bind (·.title)) "this position") }

/-- Input of one generation request, with every inference response given
at the parse seam (`none` = no JSON object found / `JSON.parse` threw). -/
structure PipelineInput where
  profileRawText : Option String
  cvTexts : List String
  jobData : Option JobData
  extractionResp : Option ExtractionJson
  jobAnalysisResp : Option JobReqJson
  tailoringResp : Option CvJson
  coverResp : Option CoverJson
  generateCoverLetter : Bool
  loggedIn : Bool
  dbSaveFails : Bool
deriving DecidableEq, Repr

/-- Errors that escape `generateCVWithClaude` and reach the
`/api/generate` catch handler, aborting the run with a user-visible
error event. -/
inductive PipelineError
  | insufficientData
  | extractionParse
  | nameMissing
  | overwriteCrash
deriving DecidableEq, Repr

/-- Result of a successful run. -/
structure RunResult where
  extracted : ExtractionJson
  jobRequirements : JobReqJson
  gap : GapAnalysis
  cvContent : CvJson
  coverLetter : Option CoverJson
  savedToDb : Bool
deriving DecidableEq, Repr

deriving instance DecidableEq for Except

/-- Whitespace test matching the characters relevant to the inputs
modelled here (JS `trim` also strips further Unicode space characters). -/
def isWS (c : Char) : Bool := c = ' ' ∨ c = '\n' ∨ c = '\t' ∨ c = '\r'

/-- JS `s.trim()` on the ASCII strings involved. -/
def jsTrim (s : String) : String :=
  String.mk (((s.data.dropWhile isWS).reverse.dropWhile isWS).reverse)

/-- Concatenated user input:
`` `${profile?.rawText || ''}\n\n${cvTexts.map(cv => cv.text).join('\n\n---\n\n')}` ``. -/
def concatInput (inp : PipelineInput) : String :=
  (jsOrD inp.profileRawText "") ++ "\n\n" ++ String.intercalate "\n\n---\n\n" inp.cvTexts

/-- Guard of the insufficient-data abort:
`!userProvidedData.trim() || userProvidedData.length < 100`. -/
def insufficientCond (inp : PipelineInput) : Prop :=
  jsTrim (concatInput inp) = "" ∨ (concatInput inp).length < 100

instance (inp : PipelineInput) : Decidable (insufficientCond inp) := by
  unfold insufficientCond; exact inferInstance

/-- Guard of the name-missing abort:
`!extractedData.name || extractedData.name === 'null'`. -/
def nameBad (ej : ExtractionJson) : Prop :=
  truthyStr ej.name = false ∨ ej.name = some "null"

instance (ej : ExtractionJson) : Decidable (nameBad ej) := by
  unfold nameBad; exact inferInstance

/-- One full pipeline run (`generateCVWithClaude` followed by the
optional cover-letter stage and the non-fatal database save), with each
stage translated in source order. -/
def run (inp : PipelineInput) : Except PipelineError RunResult :=
  if insufficientCond inp then
    .error .insufficientData
  else
    match inp.extractionResp with
    | none => .error .extractionParse
    | some ej0 =>
      let ej := postProcess ej0
      if nameBad ej then
        .error .nameMissing
      else
        let jr := inp.jobAnalysisResp.getD fallbackJobReq
        let gap := gapAnalyze (ej.skills.getD []) (jr.requiredSkills.getD [])
                     (jr.preferredSkills.getD [])
        let cv0 := inp.tailoringResp.getD (fallbackCv ej)
        match finalizeCv ej cv0 with
        | none => .error .overwriteCrash
        | some cv =>
          let cl := if inp.generateCoverLetter
            then some (inp.coverResp.getD (fallbackCover inp.jobData)) else none
          .ok { extracted := ej, jobRequirements := jr, gap := gap, cvContent := cv,
                coverLetter := cl, savedToDb := inp.loggedIn && !inp.dbSaveFails }

/-- Ephemeral session store `generatedDocs`, modelled as an association
list from session id to the entry's `createdAt` timestamp in
milliseconds (the rendered payload plays no role in insertion, lookup or
eviction). -/
def storePut (store : List (String × ℤ)) (id : String) (createdAt : ℤ) :
    List (String × ℤ) :=
  (id, createdAt) :: store.filter (fun e => e.1 ≠ id)

/-- Lookup (`generatedDocs.get(sessionId)`). -/
def storeGet (store : List (String × ℤ)) (id : String) : Option ℤ :=
  (store.find? (fun e => e.1 = id)).map (·.2)

/-- Eviction sweep `cleanupOldDocuments`: deletes every entry with
`createdAt < now - 3600000`. -/
def cleanupOldDocuments (now : ℤ) (store : List (String × ℤ)) :
    List (String × ℤ) :=
  store.filter (fun e => ¬ (e.2 < now - 3600000))

/-- HTTP-level outcome of the download/preview handlers. -/
inductive HttpOutcome
  | ok
  | notFound
deriving DecidableEq, Repr

/-- Outcome of `GET /api/download/:sessionId/:docType` as far as store
lookup is concerned: a missing session id answers 404, never an
exception. -/
def downloadOutcome (store : List (String × ℤ)) (id : String) : HttpOutcome :=
  match storeGet store id with
  | none => .notFound
  | some _ => .ok

/-- Concrete profile/CV text longer than 100 characters, used by the
concrete witnesses below. -/
def padText : String :=
  "Jane Doe, jane@x.com, 5 years Product Management, skills Agile and SQL, plus enough additional padding text to pass the one hundred character minimum check."

/-- Concrete parsed extraction response used by the witnesses. -/
def sampleExtraction : ExtractionJson :=
  { name := some "Jane Doe", email := some "jane@x.com", phone := none, linkedin := none,
    location := none, nationality := none, visaStatus := none,
    currentTitle := some "Product Manager", yearsExperience := some "5",
    skills := some ["Agile", "SQL"], experience := some [], education := some [],
    certifications := some [], languages := some [] }

/-- Concrete parsed job-analysis response used by the witnesses. -/
def sampleJobReq : JobReqJson :=
  { jobTitle := some "Senior PM", company := none,
    requiredSkills := some ["Agile", "SQL", "Roadmapping"],
    preferredSkills := some [], keywords := some [] }

/-- Concrete pipeline input used by the witnesses. -/
def sampleInput : PipelineInput :=
  { profileRawText := some padText, cvTexts := [], jobData := none,
    extractionResp := some sampleExtraction,
    jobAnalysisResp := some sampleJobReq,
    tailoringResp := none, coverResp := none, generateCoverLetter := false,
    loggedIn := false, dbSaveFails := false }

/-- Concrete job posting whose raw text names no region but whose
location is a UK city. -/
def sampleJobData : JobData :=
  { rawText := some "software role", title := none,
    company := none, location := some "London" }

/-- Profile text that is 100 whitespace characters long: it passes the
length comparison yet trims to the empty string. -/
def blankText : String :=
  "                                                                                                    "

/-- Education entry returned by the tailoring response in the C1
counterexample run. -/
def tailoredEdu : EduEntry :=
  { degree := some "PhD", institution := some "Invented University", year := some "1999" }

/-- Contact block returned by the tailoring response in the scenarios
where the model's own JSON disagrees with the extracted facts. -/
def tailoredContact : ContactJson :=
  { email := some "fake@model.example", phone := some "000", linkedin := none,
    location := some "Nowhere" }

/-- Tailoring response whose identity fields disagree with the
extracted facts and whose education list is invented. -/
def tailoredCv : CvJson :=
  { name := some "Fake Name", contact := some tailoredContact,
    nationality := none, visaStatus := none,
    headline := some "Generated headline", summary := some "Generated summary.",
    experience := some [], education := some [tailoredEdu],
    certifications := some [], languages := some [] }

/-- Tailoring response that parses as a JSON object but has no `contact`
object at all. -/
def contactlessCv : CvJson :=
  { name := some "Fake Name", contact := none,
    nationality := none, visaStatus := none,
    headline := some "Generated headline", summary := some "Generated summary.",
    experience := some [], education := some [tailoredEdu],
    certifications := some [], languages := some [] }

/-- Extraction response identical to `sampleExtraction` except that the
`education` key is absent from the parsed JSON. -/
def extractionNoEdu : ExtractionJson :=
  { sampleExtraction with education := none }

/-- C1 counterexample input: extraction succeeds but carries no
education field; the tailoring response parses and invents one. -/
def cexC1 : PipelineInput :=
  { sampleInput with extractionResp := some extractionNoEdu,
                     tailoringResp := some tailoredCv }

/-- C4 counterexample input: sufficient text, but the extraction
response contains no parsable JSON object. -/
def cexC4 : PipelineInput :=
  { sampleInput with extractionResp := none }

/-- C5 counterexample input: the concatenated input is 102 characters
long but entirely whitespace. -/
def cexC5 : PipelineInput :=
  { sampleInput with profileRawText := some blankText }

/-- C7 witness input: the job-analysis response is unparsable. -/
def cexC7 : PipelineInput :=
  { sampleInput with jobAnalysisResp := none }

/-- C10 witness input: extraction provides a truthy email while the
parsed tailoring response lacks a contact object. -/
def cexC10 : PipelineInput :=
  { sampleInput with tailoringResp := some contactlessCv }

/-- C1 witness input: a successful run in which the tailoring response
disagrees with the extracted identity fields. -/
def witC1 : PipelineInput :=
  { sampleInput with tailoringResp := some tailoredCv }

/-- C6 witness input: the extracted name is the literal string "null". -/
def cexC6 : PipelineInput :=
  { sampleInput with extractionResp := some { sampleExtraction with name := some "null" } }

/-- Variant of a pipeline input that changes only the job-analysis
response, the cover-letter response, the login flag and the
database-failure flag. -/
def degradeVariant (inp : PipelineInput) (jr : Option JobReqJson)
    (clr : Option CoverJson) (li b : Bool) : PipelineInput :=
  { inp with
    jobAnalysisResp := jr,
    coverResp := clr,
    loggedIn := li,
    dbSaveFails := b }

/-! Helper lemmas about the embedded definitions. -/

/-- Agreement of the natural-arithmetic rounding with JS `Math.round` on
the exact rational quotient. -/
theorem natRoundDiv_eq_jsRound (a n : ℕ) (hn : 0 < n) :
    (natRoundDiv a n : ℤ) = jsRound ((a : ℚ) / (n : ℚ)) := by
  unfold natRoundDiv jsRound
  have hn' : ((n : ℚ)) ≠ 0 := by positivity
  have h2n : (0 : ℚ) < 2 * n := by positivity
  have hrw : (a : ℚ) / n + 1 / 2 = (2 * a + n) / (2 * n) := by
    field_simp; ring
  have hdm := Nat.div_add_mod (2 * a + n) (2 * n)
  have hmlt : (2 * a + n) % (2 * n) < 2 * n := Nat.mod_lt _ (by omega)
  set k := (2 * a + n) / (2 * n) with hk
  set r := (2 * a + n) % (2 * n) with hr
  have hdmQ : (2 * (n : ℚ)) * k + r = 2 * a + n := by exact_mod_cast hdm
  have hmltQ : (r : ℚ) < 2 * n := by exact_mod_cast hmlt
  have hrQ : (0 : ℚ) ≤ r := by positivity
  symm
  rw [Int.floor_eq_iff]
  constructor
  · rw [hrw, le_div_iff₀ h2n]
    push_cast
    nlinarith [hdmQ, hmltQ, hrQ]
  · rw [hrw, div_lt_iff₀ h2n]
    push_cast
    nlinarith [hdmQ, hmltQ, hrQ]

theorem startsList_refl (l : List Char) : startsList l l = true := by
  induction l with
  | nil => rfl
  | cons a as ih => simp [startsList, ih]

theorem hasSubList_self (l : List Char) : hasSubList l l = true := by
  cases l with
  | nil => rfl
  | cons a as => simp [hasSubList, startsList_refl]

theorem jsIncludes_self (s : String) : jsIncludes s s = true :=
  hasSubList_self s.data

theorem skillMatch_iff (skills : List String) (s : String) :
    skillMatch (List.map lowerStr skills) s = true ↔
      ∃ c ∈ skills, (jsIncludes (lowerStr c) (lowerStr s) = true
        ∨ jsIncludes (lowerStr s) (lowerStr c) = true) := by
  unfold skillMatch
  simp only [Bool.or_eq_true, List.any_eq_true, List.mem_map]
  constructor
  · rintro (hc | ⟨cs, ⟨c, hc, rfl⟩, hor⟩)
    · have hmem : lowerStr s ∈ List.map lowerStr skills :=
        List.mem_of_elem_eq_true hc
      obtain ⟨c, hcs, he⟩ := List.mem_map.mp hmem
      exact ⟨c, hcs, Or.inl (by rw [he]; exact jsIncludes_self _)⟩
    · exact ⟨c, hc, by simpa using hor⟩
  · rintro ⟨c, hc, hor⟩
    right
    exact ⟨lowerStr c, ⟨c, hc, rfl⟩, by simpa using hor⟩

theorem mem_filter_skillMatch (skills l : List String) (s : String) :
    s ∈ l.filter (fun t => skillMatch (List.map lowerStr skills) t) ↔
      s ∈ l ∧ ∃ c ∈ skills, (jsIncludes (lowerStr c) (lowerStr s) = true
        ∨ jsIncludes (lowerStr s) (lowerStr c) = true) := by
  rw [List.mem_filter, skillMatch_iff]

theorem natRoundDiv_le_100 {m n : ℕ} (hm : m ≤ n) (hn : 0 < n) :
    natRoundDiv (100 * m) n ≤ 100 := by
  unfold natRoundDiv
  have h2n : 0 < 2 * n := by omega
  have hlt : 2 * (100 * m) + n < 101 * (2 * n) := by omega
  have := (Nat.div_lt_iff_lt_mul h2n).mpr hlt
  omega

theorem finalizeCv_eq_none_iff (ex : ExtractionJson) (cv : CvJson) :
    finalizeCv ex cv = none ↔ crashCond ex cv := by
  by_cases h : crashCond ex cv <;> simp [finalizeCv, h]

theorem finalizeCv_eq_some (ex : ExtractionJson) (cv : CvJson)
    (h : ¬ crashCond ex cv) :
    finalizeCv ex cv = some
      { cv with
        name := ex.name,
        contact := cv.contact.map (overwriteContact ex),
        education := jsOrArr ex.education cv.education,
        languages := jsOrArr ex.languages cv.languages } := by
  unfold finalizeCv
  rw [if_neg h]

theorem finalizeCv_fields {ex : ExtractionJson} {cv cv' : CvJson}
    (h : finalizeCv ex cv = some cv') :
    cv'.name = ex.name
    ∧ (truthyStr ex.email = true → cv'.contact.map (·.email) = some ex.email)
    ∧ (truthyStr ex.phone = true → cv'.contact.map (·.phone) = some ex.phone)
    ∧ (truthyStr ex.linkedin = true → cv'.contact.map (·.linkedin) = some ex.linkedin)
    ∧ (∀ l, ex.education = some l → cv'.education = some l)
    ∧ (∀ l, ex.languages = some l → cv'.languages = some l) := by
  by_cases hc : crashCond ex cv
  · rw [finalizeCv, if_pos hc] at h; cases h
  · rw [finalizeCv_eq_some ex cv hc] at h
    injection h with h
    subst h
    refine ⟨rfl, ?_, ?_, ?_, ?_, ?_⟩
    · intro he
      cases hcc : cv.contact with
      | none => exact absurd ⟨hcc, by simp [he]⟩ hc
      | some c => simp [hcc, overwriteContact, he]
    · intro hp
      cases hcc : cv.contact with
      | none => exact absurd ⟨hcc, by simp [hp]⟩ hc
      | some c => simp [hcc, overwriteContact, hp]
    · intro hl
      cases hcc : cv.contact with
      | none => exact absurd ⟨hcc, by simp [hl]⟩ hc
      | some c => simp [hcc, overwriteContact, hl]
    · intro l hl; simp [jsOrArr, hl]
    · intro l hl; simp [jsOrArr, hl]

theorem nameBad_iff (ej : ExtractionJson) :
    nameBad ej ↔ ej.name = none ∨ ej.name = some "" ∨ ej.name = some "null" := by
  unfold nameBad
  cases h : ej.name with
  | none => simp [truthyStr, h]
  | some s => simp [truthyStr, h, decide_eq_false_iff_not]

theorem run_ok_inv {inp : PipelineInput} {r : RunResult} (h : run inp = .ok r) :
    ∃ ej0, inp.extractionResp = some ej0
      ∧ ¬ insufficientCond inp
      ∧ ¬ nameBad (postProcess ej0)
      ∧ r.extracted = postProcess ej0
      ∧ r.jobRequirements = inp.jobAnalysisResp.getD fallbackJobReq
      ∧ r.gap = gapAnalyze ((postProcess ej0).skills.getD [])
          ((inp.jobAnalysisResp.getD fallbackJobReq).requiredSkills.getD [])
          ((inp.jobAnalysisResp.getD fallbackJobReq).preferredSkills.getD [])
      ∧ finalizeCv (postProcess ej0)
          (inp.tailoringResp.getD (fallbackCv (postProcess ej0))) = some r.cvContent := by
  unfold run at h
  split at h
  · cases h
  · split at h
    · cases h
    · next ej0 hex =>
      simp only at h
      split at h
      · cases h
      · next hname =>
        split at h
        · cases h
        · next cv hcv =>
          injection h with h
          subst h
          exact ⟨ej0, hex, by assumption, hname, rfl, rfl, rfl, hcv⟩

theorem run_isOk_iff (inp : PipelineInput) :
    (run inp).isOk = true ↔
      ¬ insufficientCond inp
      ∧ ∃ ej0, inp.extractionResp = some ej0
          ∧ ¬ nameBad (postProcess ej0)
          ∧ ¬ crashCond (postProcess ej0)
              (inp.tailoringResp.getD (fallbackCv (postProcess ej0))) := by
  constructor
  · intro h
    cases hr : run inp with
    | error e => rw [hr] at h; cases h
    | ok r =>
      obtain ⟨ej0, hex, hins, hname, _, _, _, hfin⟩ := run_ok_inv hr
      refine ⟨hins, ej0, hex, hname, ?_⟩
      intro hc
      rw [(finalizeCv_eq_none_iff _ _).mpr hc] at hfin
      cases hfin
  · rintro ⟨hins, ej0, hex, hname, hncrash⟩
    unfold run
    rw [if_neg hins, hex]
    simp only
    rw [if_neg hname]
    cases hfc : finalizeCv (postProcess ej0)
        (inp.tailoringResp.getD (fallbackCv (postProcess ej0))) with
    | none => exact absurd ((finalizeCv_eq_none_iff _ _).mp hfc) hncrash
    | some cv => rfl

theorem fallbackCv_no_crash (ex ej : ExtractionJson) :
    ¬ crashCond ex (fallbackCv ej) := by
  simp [crashCond, fallbackCv]

/-! Theorems settling the claims. -/

/-- C2: for every profile skill list and every pair of job skill lists,
`matchPercentage` is an integer in [0, 100]; when `requiredSkills` is
non-empty it equals `round(matchedRequired.size / requiredSkills.size * 100)`,
and when `requiredSkills` is empty it equals 70 regardless of the
profile's skills. -/
theorem C2_match_percentage (skills req pref : List String) :
    0 ≤ (gapAnalyze skills req pref).matchPercent
    ∧ (gapAnalyze skills req pref).matchPercent ≤ 100
    ∧ (gapAnalyze skills req pref).matchPercent =
        (if req = [] then 70
         else jsRound (((gapAnalyze skills req pref).matchedRequired.length : ℚ)
           / (req.length : ℚ) * 100)) := by
  have hmr : (gapAnalyze skills req pref).matchedRequired
      = req.filter (fun t => skillMatch (List.map lowerStr skills) t) := rfl
  have hpct : (gapAnalyze skills req pref).matchPercent
      = (if req.length > 0
         then ((natRoundDiv (100 * (req.filter (fun t =>
             skillMatch (List.map lowerStr skills) t)).length) req.length : ℕ) : ℤ)
         else 70) := rfl
  by_cases h : req = []
  · subst h
    refine ⟨by norm_num [hpct], by norm_num [hpct], by simp [hpct]⟩
  · have hn : 0 < req.length := List.length_pos.mpr h
    have hm : (req.filter (fun t => skillMatch (List.map lowerStr skills) t)).length
        ≤ req.length := List.length_filter_le _ _
    rw [hpct, if_pos hn]
    refine ⟨by positivity, by exact_mod_cast natRoundDiv_le_100 hm hn, ?_⟩
    rw [if_neg h, hmr, natRoundDiv_eq_jsRound _ _ hn]
    congr 1
    push_cast
    ring

/-- C3: a required (or preferred) skill is matched exactly when some
candidate skill, lowercased, contains the lowercased skill or is
contained in it; in particular with required skills `["SQL", "Python"]`
and candidate skills `["Advanced SQL"]`, `matchedRequired` is `["SQL"]`
and the match percentage is 50. -/
theorem C3_skill_matching (skills req pref : List String) (s : String) :
    (s ∈ (gapAnalyze skills req pref).matchedRequired ↔
      s ∈ req ∧ ∃ c ∈ skills, (jsIncludes (lowerStr c) (lowerStr s) = true
        ∨ jsIncludes (lowerStr s) (lowerStr c) = true))
    ∧ (s ∈ (gapAnalyze skills req pref).matchedPreferred ↔
      s ∈ pref ∧ ∃ c ∈ skills, (jsIncludes (lowerStr c) (lowerStr s) = true
        ∨ jsIncludes (lowerStr s) (lowerStr c) = true))
    ∧ (gapAnalyze ["Advanced SQL"] ["SQL", "Python"] []).matchedRequired = ["SQL"]
    ∧ (gapAnalyze ["Advanced SQL"] ["SQL", "Python"] []).matchPercent = 50 := by
  refine ⟨?_, ?_, by decide, by decide⟩
  · exact mem_filter_skillMatch skills req s
  · exact mem_filter_skillMatch skills pref s

/-- C1 counterexample: a successful run in which the parsed extraction
carries no education field while the tailoring response supplies one;
the final CvContent keeps the tailoring value, so it does not equal the
ExtractedProfile value. -/
theorem C1_counterexample :
    (run cexC1).toOption.map (fun r => r.extracted.education) = some none
    ∧ (run cexC1).toOption.map (fun r => r.cvContent.education)
        = some (some [tailoredEdu])
    ∧ (some (some [tailoredEdu]) : Option (Option (List EduEntry))) ≠ some none := by
  decide

/-- C1 amended: on every successful run the final CvContent's name
equals the extracted name; every truthy (non-null, non-empty) extracted
contact field overwrites the corresponding CvContent contact field; and
education and languages equal the extracted values whenever those are
present in the parsed extraction — when they are absent, the tailoring
output's value is kept. This holds regardless of the tailoring output
and on the fallback path as well. -/
theorem C1_identity_overwrite (inp : PipelineInput) (r : RunResult)
    (h : run inp = .ok r) :
    r.cvContent.name = r.extracted.name
    ∧ (truthyStr r.extracted.email = true →
        r.cvContent.contact.map (·.email) = some r.extracted.email)
    ∧ (truthyStr r.extracted.phone = true →
        r.cvContent.contact.map (·.phone) = some r.extracted.phone)
    ∧ (truthyStr r.extracted.linkedin = true →
        r.cvContent.contact.map (·.linkedin) = some r.extracted.linkedin)
    ∧ (∀ l, r.extracted.education = some l → r.cvContent.education = some l)
    ∧ (∀ l, r.extracted.languages = some l → r.cvContent.languages = some l) := by
  obtain ⟨ej0, hex, hins, hname, hextr, hjr, hgap, hfin⟩ := run_ok_inv h
  rw [hextr]
  exact finalizeCv_fields hfin

/-- C1 witness: on a concrete successful run whose tailoring response
reports a different name and email, the overwrite wins. -/
theorem C1_witness :
    (run witC1).toOption.map (fun r => r.cvContent.name) = some (some "Jane Doe")
    ∧ (run witC1).toOption.map (fun r => r.cvContent.contact.map (·.email))
        = some (some (some "jane@x.com")) := by
  cases hr : run witC1 with
  | error e =>
    have hok : (run witC1).isOk = true := by decide
    rw [hr] at hok
    cases hok
  | ok r =>
    have hname : r.extracted.name = some "Jane Doe" := by
      have hd : (run witC1).toOption.map (fun x => x.extracted.name)
          = some (some "Jane Doe") := by decide
      rw [hr] at hd
      simpa [Except.toOption] using hd
    have hemail : r.extracted.email = some "jane@x.com" := by
      have hd : (run witC1).toOption.map (fun x => x.extracted.email)
          = some (some "jane@x.com") := by decide
      rw [hr] at hd
      simpa [Except.toOption] using hd
    obtain ⟨h1, h2, _⟩ := C1_identity_overwrite witC1 r hr
    have h2c := h2 (by rw [hemail]; decide)
    constructor
    · simp [Except.toOption, h1, hname]
    · simp [Except.toOption, h2c, hemail]

/-- C4 counterexample: with sufficient input text but an unparsable
extraction response, the run aborts with the extraction-parse failure —
an abort that is neither `InsufficientDataError` nor `NameMissingError`,
refuting "only InsufficientDataError and NameMissingError abort". -/
theorem C4_counterexample :
    run cexC4 = .error .extractionParse
    ∧ PipelineError.extractionParse ≠ PipelineError.insufficientData
    ∧ PipelineError.extractionParse ≠ PipelineError.nameMissing := by
  decide

/-- C4 amended: a run aborts exactly when the input is insufficient, the
extraction response is unparsable, the extracted name is missing, or the
identity-overwrite pass crashes on a parsed tailoring response without a
contact object. In particular job-analysis parse failure, cover-letter
parse failure, login state and database persistence failure never change
whether a run succeeds, and with an unparsable tailoring response a run
aborts only for the first three reasons. -/
theorem C4_abort_policy (inp : PipelineInput) :
    ((∃ e, run inp = .error e) ↔
      insufficientCond inp
      ∨ inp.extractionResp = none
      ∨ (∃ ej0, inp.extractionResp = some ej0 ∧ nameBad (postProcess ej0))
      ∨ (∃ ej0, inp.extractionResp = some ej0
          ∧ crashCond (postProcess ej0)
              (inp.tailoringResp.getD (fallbackCv (postProcess ej0)))))
    ∧ (∀ jr clr li b,
        (run (degradeVariant inp jr clr li b)).isOk = (run inp).isOk)
    ∧ ((run { inp with tailoringResp := none }).isOk = true ↔
        ¬ insufficientCond inp
        ∧ ∃ ej0, inp.extractionResp = some ej0 ∧ ¬ nameBad (postProcess ej0)) := by
  refine ⟨?_, ?_, ?_⟩
  · have hiff := run_isOk_iff inp
    have herr : (∃ e, run inp = .error e) ↔ ¬ (run inp).isOk = true := by
      cases hr : run inp <;> simp [Except.isOk, Except.toBool]
    rw [herr, hiff]
    constructor
    · intro h
      by_cases h1 : insufficientCond inp
      · exact Or.inl h1
      · cases hext : inp.extractionResp with
        | none => exact Or.inr (Or.inl rfl)
        | some ej0 =>
          by_cases h2 : nameBad (postProcess ej0)
          · exact Or.inr (Or.inr (Or.inl ⟨ej0, rfl, h2⟩))
          · by_cases h3 : crashCond (postProcess ej0)
                (inp.tailoringResp.getD (fallbackCv (postProcess ej0)))
            · exact Or.inr (Or.inr (Or.inr ⟨ej0, rfl, h3⟩))
            · exact absurd ⟨h1, ej0, hext, h2, h3⟩ h
    · rintro (h1 | h1 | ⟨ej0, hext, hb⟩ | ⟨ej0, hext, hb⟩) ⟨hins, ej1, hex1, hname1, hnc1⟩
      · exact hins h1
      · rw [h1] at hex1; cases hex1
      · rw [hext] at hex1; injection hex1 with he; subst he; exact hname1 hb
      · rw [hext] at hex1; injection hex1 with he; subst he; exact hnc1 hb
  · intro jr clr li b
    have h2 := run_isOk_iff (degradeVariant inp jr clr li b)
    have h1 := run_isOk_iff inp
    have hsame : ((run (degradeVariant inp jr clr li b)).isOk = true)
        ↔ ((run inp).isOk = true) := by rw [h1, h2]; exact Iff.rfl
    cases hA : (run (degradeVariant inp jr clr li b)).isOk
      <;> cases hB : (run inp).isOk <;> simp_all
  · rw [run_isOk_iff]
    constructor
    · rintro ⟨hins, ej0, hex, hname, _⟩
      exact ⟨hins, ej0, hex, hname⟩
    · rintro ⟨hins, ej0, hex, hname⟩
      exact ⟨hins, ej0, hex, hname, fallbackCv_no_crash _ _⟩

/-- C5 counterexample: a 102-character all-whitespace concatenated input
has at least 100 characters yet the run still fails with the
insufficient-data abort, refuting "with 100 or more characters of
concatenated input it proceeds to extraction". -/
theorem C5_counterexample :
    (concatInput cexC5).length ≥ 100 ∧ run cexC5 = .error .insufficientData := by
  decide

/-- C5 amended: the run fails with the insufficient-data abort exactly
when the concatenated profile and CV input trims to the empty string or
is shorter than 100 characters; non-blank input of at least 100
characters proceeds to extraction. The condition reads only the input
text, so the abort happens before any inference response is consumed. -/
theorem C5_insufficient_data (inp : PipelineInput) :
    run inp = .error .insufficientData ↔
      (jsTrim (concatInput inp) = "" ∨ (concatInput inp).length < 100) := by
  have hc : (jsTrim (concatInput inp) = "" ∨ (concatInput inp).length < 100)
      ↔ insufficientCond inp := Iff.rfl
  rw [hc]
  constructor
  · intro h
    by_cases h1 : insufficientCond inp
    · exact h1
    · exfalso
      unfold run at h
      rw [if_neg h1] at h
      split at h
      · simp at h
      · simp only at h
        split at h
        · simp at h
        · split at h
          · simp at h
          · simp at h
  · intro h1
    unfold run
    rw [if_pos h1]

/-- C6: given sufficient input and a parsed extraction response, the run
fails with the name-missing abort precisely when the extracted name is
absent (null or empty) or is the literal string "null"; any other name
lets the pipeline continue past validation. -/
theorem C6_name_validation (inp : PipelineInput) (ej0 : ExtractionJson)
    (hins : ¬ insufficientCond inp) (hex : inp.extractionResp = some ej0) :
    run inp = .error .nameMissing ↔
      ej0.name = none ∨ ej0.name = some "" ∨ ej0.name = some "null" := by
  have hpp : (postProcess ej0).name = ej0.name := rfl
  rw [← hpp, ← nameBad_iff]
  unfold run
  rw [if_neg hins, hex]
  simp only
  by_cases hb : nameBad (postProcess ej0)
  · simp [hb]
  · rw [if_neg hb]
    simp only [hb, iff_false]
    intro hcon
    split at hcon
    · simp at hcon
    · simp at hcon

/-- C6 witness: an extraction whose name is the literal string "null"
aborts with the name-missing failure. -/
theorem C6_witness : run cexC6 = .error .nameMissing :=
  (C6_name_validation cexC6 { sampleExtraction with name := some "null" }
    (by decide) rfl).mpr (by decide)

/-- C7: when the job-analysis response cannot be parsed, the run does
not fail: the job requirements fall back to the record with empty
required skills, preferred skills and keywords, and the downstream gap
analysis and tailoring still run to completion on that fallback value. -/
theorem C7_job_analysis_fallback (inp : PipelineInput) (ej0 : ExtractionJson)
    (hins : ¬ insufficientCond inp) (hex : inp.extractionResp = some ej0)
    (hname : ¬ nameBad (postProcess ej0))
    (hjob : inp.jobAnalysisResp = none)
    (hnc : ¬ crashCond (postProcess ej0)
        (inp.tailoringResp.getD (fallbackCv (postProcess ej0)))) :
    (run inp).isOk = true
    ∧ (run inp).toOption.map (·.jobRequirements) = some fallbackJobReq
    ∧ fallbackJobReq.requiredSkills = some []
    ∧ fallbackJobReq.preferredSkills = some []
    ∧ fallbackJobReq.keywords = some []
    ∧ (run inp).toOption.map (·.gap)
        = some (gapAnalyze ((postProcess ej0).skills.getD []) [] []) := by
  have hok : (run inp).isOk = true :=
    (run_isOk_iff inp).mpr ⟨hins, ej0, hex, hname, hnc⟩
  cases hr : run inp with
  | error e => rw [hr] at hok; cases hok
  | ok r =>
    obtain ⟨ej1, hex1, _, _, _, hjr, hgap, _⟩ := run_ok_inv hr
    have hej : ej1 = ej0 := by rw [hex] at hex1; injection hex1 with hh; exact hh.symm
    subst hej
    refine ⟨rfl, ?_, rfl, rfl, rfl, ?_⟩
    · simp [Except.toOption, hjr, hjob]
    · have hmap : (Except.ok r : Except PipelineError RunResult).toOption.map (·.gap)
          = some r.gap := rfl
      rw [hmap, hgap, hjob]
      rfl

/-- C7 witness: a concrete run with an unparsable job-analysis response
completes and carries the empty-lists fallback requirements. -/
theorem C7_witness :
    (run cexC7).isOk = true
    ∧ (run cexC7).toOption.map (·.jobRequirements) = some fallbackJobReq := by
  have h := C7_job_analysis_fallback cexC7 sampleExtraction
    (by decide) rfl (by decide) rfl (by decide)
  exact ⟨h.1, h.2.1⟩

/-- C8 counterexample: a job posting whose raw text names no region but
whose location is "London" is classified GLOBAL by the code, while the
spec's reading — in which the location string also participates in the
match — yields UK. -/
theorem C8_counterexample :
    detectRegion (some sampleJobData) = Region.GLOBAL
    ∧ detectRegionSpec (some sampleJobData) = Region.UK
    ∧ Region.GLOBAL ≠ Region.UK := by
  decide

/-- C8 amended: the classifier lowercases its text and applies the fixed
gazetteer cascade EU → UK → US → GLOBAL, but only the raw job text
participates whenever it is non-empty; the location string (an absent
location stringifying to "undefined") is consulted only when the raw job
text is null or empty. -/
theorem C8_region_classifier (jobData : Option JobData) :
    (∀ s, jobData.bind (·.rawText) = some s → s ≠ "" →
      detectRegion jobData = regionOfText (lowerStr s))
    ∧ ((jobData.bind (·.rawText) = none ∨ jobData.bind (·.rawText) = some "") →
      detectRegion jobData
        = regionOfText (lowerStr (jsCoerceStr (jobData.bind (·.location))))) := by
  constructor
  · intro s hs hne
    unfold detectRegion
    rw [hs]
    simp [jsOrD, hne]
  · intro h
    unfold detectRegion
    rcases h with h | h <;> rw [h] <;> simp [jsOrD]

/-- C8 witness: with a non-empty raw job text, classification is the
gazetteer cascade on the lowercased raw text alone. -/
theorem C8_witness :
    detectRegion (some sampleJobData) = regionOfText (lowerStr "software role") :=
  (C8_region_classifier (some sampleJobData)).1 "software role" rfl (by decide)

/-- C9: an artifact inserted at time t0 is removed by the 3600000 ms
sweep run at any strictly later time than t0 + 3600000 and its id then
looks up to nothing; the sweep keeps exactly the entries that are not
older than the threshold; and a download for an id that is not in the
store answers 404 rather than an error. -/
theorem C9_session_store (store : List (String × ℤ)) (id : String) (t0 now : ℤ)
    (h : t0 + 3600000 < now) :
    storeGet (cleanupOldDocuments now (storePut store id t0)) id = none
    ∧ (∀ e, e ∈ cleanupOldDocuments now store ↔ (e ∈ store ∧ ¬ e.2 < now - 3600000))
    ∧ (∀ id2, storeGet store id2 = none → downloadOutcome store id2 = .notFound) := by
  refine ⟨?_, ?_, ?_⟩
  · unfold storeGet
    have hfind : List.find? (fun e => e.1 = id)
        (cleanupOldDocuments now (storePut store id t0)) = none := by
      rw [List.find?_eq_none]
      intro x hx
      unfold cleanupOldDocuments at hx
      rw [List.mem_filter] at hx
      obtain ⟨hx1, hx2⟩ := hx
      unfold storePut at hx1
      rcases List.mem_cons.mp hx1 with rfl | hmem
      · exfalso
        simp only [decide_eq_true_eq] at hx2
        exact hx2 (by omega)
      · rw [List.mem_filter] at hmem
        simpa using hmem.2
    rw [hfind]
    rfl
  · intro e
    unfold cleanupOldDocuments
    rw [List.mem_filter]
    simp
  · intro id2 hid
    unfold downloadOutcome
    rw [hid]

/-- C9 witness: a concrete artifact inserted at time 0 is gone after a
sweep at time 3600001. -/
theorem C9_witness :
    storeGet (cleanupOldDocuments 3600001 (storePut [] "abc" 0)) "abc" = none :=
  (C9_session_store [] "abc" 0 3600001 (by decide)).1

/-- C10: when the parsed tailoring response lacks a contact object and
the extracted profile has a truthy email, phone or linkedin, the
identity-overwrite pass dereferences an undefined contact field and the
whole generation aborts instead of degrading to the fallback CvContent. -/
theorem C10_overwrite_crash (inp : PipelineInput) (ej0 : ExtractionJson)
    (cv0 : CvJson)
    (hins : ¬ insufficientCond inp) (hex : inp.extractionResp = some ej0)
    (hname : ¬ nameBad (postProcess ej0))
    (htail : inp.tailoringResp = some cv0)
    (hcontact : cv0.contact = none)
    (hfield : truthyStr ej0.email = true ∨ truthyStr ej0.phone = true
      ∨ truthyStr ej0.linkedin = true) :
    run inp = .error .overwriteCrash := by
  have hcrash : crashCond (postProcess ej0)
      (inp.tailoringResp.getD (fallbackCv (postProcess ej0))) := by
    rw [htail]
    refine ⟨by simpa using hcontact, ?_⟩
    rcases hfield with hf | hf | hf <;> simp [postProcess, hf]
  unfold run
  rw [if_neg hins, hex]
  simp only
  rw [if_neg hname]
  rw [(finalizeCv_eq_none_iff _ _).mpr hcrash]

/-- C10 witness: a concrete run whose tailoring response parses without
a contact object aborts with the overwrite crash. -/
theorem C10_witness : run cexC10 = .error .overwriteCrash :=
  C10_overwrite_crash cexC10 sampleExtraction contactlessCv
    (by decide) rfl (by decide) rfl rfl (Or.inl (by decide))

end FlashJobs
